import Mathlib

/-!
Shallow embedding of the RaiderCache decision engine
(src/src/utils/dataLoader.ts, class DecisionEngine — the variant with
finalizeDecision and the reverse recipe index) together with the helpers it
uses (src/src/utils/weaponGrouping.ts).  JavaScript records
(Record<string, number>) are embedded as ordered association lists, optional
fields as Option, and JS numbers holding coin values as integers (the data
ships integer coin values).  The one fractional constant of the source, the
0.5 of the recycle-value rule, is embedded by clearing the denominator
(total > value * 0.5 becomes 2 * total > value, which is equivalent over the
integers); the lemma half_value_bridge below records the equivalence with the
literal rational form.  Fields of the TypeScript interfaces that the engine
never reads (icons, weights, timestamps, descriptions) are omitted.
-/

/-- Substring helpers mirroring the JS String.prototype.includes test used by
isHighValueTrinket: headMatch pat s is true when pat is an initial segment
of s. -/
def headMatch : List Char → List Char → Bool
  | [], _ => true
  | _ :: _, [] => false
  | a :: as, b :: bs => a == b && headMatch as bs

/-- occursInAux pat s decides whether pat occurs contiguously inside s. -/
def occursInAux (pat : List Char) : List Char → Bool
  | [] => headMatch pat []
  | c :: rest => headMatch pat (c :: rest) || occursInAux pat rest

/-- occursIn s pat mirrors the JS expression s.includes(pat). -/
def occursIn (s pat : String) : Bool :=
  occursInAux pat.data s.data

/-- Mirrors the JS expression s.toLowerCase() for the ASCII strings the engine
compares. -/
def toLowerStr (s : String) : String :=
  String.mk (s.data.map Char.toLower)

/-- Mirrors the JS expression s.charAt(0).toUpperCase() + s.slice(1). -/
def capitalizeStr (s : String) : String :=
  match s.data with
  | [] => ""
  | c :: cs => String.mk (Char.toUpper c :: cs)

/-- The character class of the ROMAN_REGEX suffix in weaponGrouping.ts:
[ivx] with the case-insensitive flag. -/
def isRomanChar (c : Char) : Bool :=
  c == 'i' || c == 'v' || c == 'x' || c == 'I' || c == 'V' || c == 'X'

/-- WeaponGrouper.isWeaponVariant tests the id against the anchored regex
(.+?)_([ivx]+)$ (case-insensitive): the id must decompose as a nonempty base,
an underscore, and a nonempty run of Roman-numeral characters.  Because the
underscore is not itself a Roman-numeral character, such a decomposition
exists exactly when the maximal trailing Roman-character run is nonempty, is
preceded by an underscore, and at least one character precedes that
underscore.  (The JS newline subtleties of the dot and the dollar anchor are
not modelled: item ids are newline-free slugs.) -/
def isWeaponVariantChars (chars : List Char) : Bool :=
  let rev := chars.reverse
  match rev.dropWhile isRomanChar with
  | '_' :: base => !(rev.takeWhile isRomanChar).isEmpty && !base.isEmpty
  | _ => false

/-- Item: the catalog record (src/src/types, Item interface of the variant
with Record-valued mappings).  recyclesInto, salvagesInto, crafting and
recipe are JS Records from item id to quantity, embedded as ordered
association lists; absence of the field is None. -/
structure Item where
  id : String
  name : String
  type : String
  rarity : Option String
  value : Int
  recyclesInto : Option (List (String × Nat))
  salvagesInto : Option (List (String × Nat))
  crafting : Option (List (String × Nat))
  recipe : Option (List (String × Nat))
  deriving DecidableEq, Repr

/-- A requirement or reward entry naming an item, the shape read by the
engine via the field item_id (quest requirements, quest rewardItemIds,
project requirements, project phase requirements, workshop level
requirements). -/
structure ItemRef where
  item_id : String
  quantity : Nat
  deriving DecidableEq, Repr

/-- Quest reference data, restricted to the fields the engine reads. -/
structure Quest where
  id : String
  name : String
  requirements : Option (List ItemRef)
  rewardItemIds : Option (List ItemRef)
  deriving DecidableEq, Repr

/-- One phase of a project (ProjectPhase). -/
structure ProjectPhase where
  requirementItemIds : Option (List ItemRef)
  deriving DecidableEq, Repr

/-- Project reference data, restricted to the fields the engine reads. -/
structure Project where
  id : String
  name : String
  requirements : Option (List ItemRef)
  phases : Option (List ProjectPhase)
  deriving DecidableEq, Repr

/-- One upgrade level of a hideout module (WorkshopLevel). -/
structure WorkshopLevel where
  level : Int
  requirementItemIds : Option (List ItemRef)
  deriving DecidableEq, Repr

/-- HideoutModule reference data, restricted to the fields the engine
reads. -/
structure HideoutModule where
  id : String
  name : String
  maxLevel : Int
  levels : List WorkshopLevel
  deriving DecidableEq, Repr

/-- UserProgress: hideoutLevels is a JS object from module id to level,
embedded as an association list with the leftmost binding for a key the
visible one. -/
structure UserProgress where
  hideoutLevels : List (String × Int)
  completedQuests : List String
  completedProjects : List String
  deriving DecidableEq, Repr

/-- The three possible verdicts (RecycleDecision). -/
inductive RecycleDecision where
  | keep
  | sell_or_recycle
  | situational
  deriving DecidableEq, Repr

/-- DecisionReason: the verdict record.  The optional TS fields dependencies
and recycleValueExceedsItem are embedded with defaults (empty list, false)
standing for absence. -/
structure DecisionReason where
  decision : RecycleDecision
  reasons : List String
  dependencies : List String := []
  recycleValueExceedsItem : Bool := false
  deriving DecidableEq, Repr

/-- The DecisionEngine constructor state: the four reference lists.  The
source also precomputes an id-keyed item map (last write wins) and the
reverse recipe index; both are recomputed here by lookupItem and
buildReverseRecipeIndex, which is extensionally the same. -/
structure DecisionEngine where
  items : List Item
  hideoutModules : List HideoutModule
  quests : List Quest
  projects : List Project
  deriving DecidableEq, Repr

/-- this.items.get(id): the Map built by new Map(items.map(i => [i.id, i]))
maps an id to the LAST item bearing it. -/
def lookupItem (items : List Item) (id : String) : Option Item :=
  items.reverse.find? (fun it => it.id == id)

/-- Modelled from the spec: the engine imports buildReverseRecipeIndex from
./recipeUtils, whose source file is not present in the repository snapshot.
Per the spec (sections 3 and 4.1), the reverse recipe index maps each
ingredient id to the ordered list of ids of the catalog items whose recipe
references that ingredient, preserving catalog order; items without a recipe
contribute nothing, and an ingredient used by nobody is simply absent (here:
the empty list, matching Map.get returning undefined and the source reading
...?.length || 0). -/
def buildReverseRecipeIndex (items : List Item) (ingredientId : String) : List String :=
  (items.filter (fun it => (it.recipe.getD []).any (fun kv => kv.1 == ingredientId))).map
    (fun it => it.id)

/-- The recycle-data source selection item.recyclesInto || item.salvagesInto
|| item.crafting: JS picks the first DEFINED record (an empty object is
truthy), hence Option.orElse on the three optional fields. -/
def recycleData (item : Item) : Option (List (String × Nat)) :=
  item.recyclesInto <|> item.salvagesInto <|> item.crafting

/-- Result record of evaluateRecycleValue. -/
structure RecycleValueResult where
  isValuable : Bool
  description : String
  estimatedValue : Int
  deriving DecidableEq, Repr

/-- DecisionEngine.evaluateRecycleValue: over the selected recycle data,
resolve each output id in the catalog (silently skipping unresolved ids),
accumulate quantity-weighted values, and compare against half the item
value. -/
def evaluateRecycleValue (e : DecisionEngine) (item : Item) : RecycleValueResult :=
  match recycleData item with
  | none => { isValuable := false, description := "Nothing", estimatedValue := 0 }
  | some entries =>
    if entries.isEmpty then
      { isValuable := false, description := "Nothing", estimatedValue := 0 }
    else
      let resolved := entries.filterMap
        (fun kv => (lookupItem e.items kv.1).map (fun oi => (kv.2, oi)))
      let totalValue := resolved.foldl (fun acc qo => acc + qo.2.value * (qo.1 : Int)) 0
      -- totalValue > item.value * 0.5, written with the denominator cleared
      { isValuable := decide (2 * totalValue > item.value),
        description := String.intercalate ", "
          (resolved.map (fun qo => toString qo.1 ++ "x " ++ qo.2.name)),
        estimatedValue := totalValue }

/-- DecisionEngine.finalizeDecision: if the item has nonempty recycle data
and its estimated recycle value strictly exceeds its own value, set the
recycleValueExceedsItem flag on the verdict. -/
def finalizeDecision (e : DecisionEngine) (item : Item) (decision : DecisionReason) :
    DecisionReason :=
  match recycleData item with
  | some entries =>
    if !entries.isEmpty && decide ((evaluateRecycleValue e item).estimatedValue > item.value) then
      { decision with recycleValueExceedsItem := true }
    else decision
  | none => decision

/-- Result record of evaluateCraftingValue. -/
structure CraftingValueResult where
  isValuable : Bool
  recipeCount : Nat
  details : String
  deriving DecidableEq, Repr

/-- DecisionEngine.evaluateCraftingValue: recipeCount counts the catalog
items using this item as an ingredient (reverse recipe index), and rarity is
compared verbatim against rare, epic, legendary. -/
def evaluateCraftingValue (e : DecisionEngine) (item : Item) : CraftingValueResult :=
  let recipeCount := (buildReverseRecipeIndex e.items item.id).length
  let isRare := match item.rarity with
    | some r => r == "rare" || r == "epic" || r == "legendary"
    | none => false
  { isValuable := decide (recipeCount > 2) || (decide (recipeCount > 0) && isRare),
    recipeCount := recipeCount,
    details := if isRare then "Rare crafting material" else "Common crafting ingredient" }

/-- DecisionEngine.isHighValueTrinket. -/
def isHighValueTrinket (item : Item) : Bool :=
  decide (item.value ≥ 1000)
    && (item.recipe.getD []).isEmpty
    && ((recycleData item).getD []).isEmpty
    && ["trinket", "misc", "collectible"].any (fun kw => occursIn (toLowerStr item.type) kw)

/-- Whether one quest references the item: a requirements entry or a
rewardItemIds entry with matching item_id (the reward check only runs when
the requirements check failed, which collapses to a disjunction). -/
def questMatchesItem (q : Quest) (item : Item) : Bool :=
  let reqMatch := match q.requirements with
    | some reqs => !reqs.isEmpty && reqs.any (fun r => r.item_id == item.id)
    | none => false
  if reqMatch then true
  else match q.rewardItemIds with
    | some rs => !rs.isEmpty && rs.any (fun r => r.item_id == item.id)
    | none => false

/-- DecisionEngine.isUsedInActiveQuests, returning the collected quest names
(the isUsed flag of the source is the nonemptiness of this list). -/
def activeQuestNames (e : DecisionEngine) (item : Item) (p : UserProgress) : List String :=
  (e.quests.filter
    (fun q => !p.completedQuests.contains q.id && questMatchesItem q item)).map
    (fun q => q.name)

/-- Whether one project references the item, in the legacy flat requirement
list or inside any phase. -/
def projectMatchesItem (pr : Project) (item : Item) : Bool :=
  let reqMatch := match pr.requirements with
    | some reqs => !reqs.isEmpty && reqs.any (fun r => r.item_id == item.id)
    | none => false
  if reqMatch then true
  else match pr.phases with
    | some phases =>
      !phases.isEmpty && phases.any (fun ph =>
        match ph.requirementItemIds with
        | some rs => !rs.isEmpty && rs.any (fun r => r.item_id == item.id)
        | none => false)
    | none => false

/-- DecisionEngine.isUsedInActiveProjects, returning the collected project
names. -/
def activeProjectNames (e : DecisionEngine) (item : Item) (p : UserProgress) : List String :=
  (e.projects.filter
    (fun pr => !p.completedProjects.contains pr.id && projectMatchesItem pr item)).map
    (fun pr => pr.name)

/-- userProgress.hideoutLevels[module.id] || 1: both a missing binding and a
binding to 0 (falsy in JS) yield 1; any other number, including negatives,
is used verbatim. -/
def currentLevelOf (p : UserProgress) (moduleId : String) : Int :=
  match p.hideoutLevels.lookup moduleId with
  | none => 1
  | some v => if v == 0 then 1 else v

/-- The entries one module contributes in isNeededForUpgrades: nothing when
the module is at or above max level; otherwise one entry per level strictly
above the current level whose requirement list references the item. -/
def moduleEntries (p : UserProgress) (item : Item) (m : HideoutModule) : List String :=
  if currentLevelOf p m.id ≥ m.maxLevel then []
  else if m.levels.isEmpty then []
  else
    (m.levels.filter (fun L =>
        decide (currentLevelOf p m.id < L.level)
          && !(L.requirementItemIds.getD []).isEmpty
          && (L.requirementItemIds.getD []).any (fun r => r.item_id == item.id))).map
      (fun L => m.name ++ " (Level " ++ toString L.level ++ ")")

/-- DecisionEngine.isNeededForUpgrades, returning the collected module+level
names. -/
def upgradeNames (e : DecisionEngine) (item : Item) (p : UserProgress) : List String :=
  (e.hideoutModules.map (moduleEntries p item)).flatten

/-- The step-14 guard: item.rarity && [rare, epic].includes(lowercased). -/
def rarityRareEpic (item : Item) : Bool :=
  match item.rarity with
  | some r => toLowerStr r == "rare" || toLowerStr r == "epic"
  | none => false

/-- DecisionEngine.getDecision: the priority cascade of sequential early
returns, every branch passing through finalizeDecision. -/
def getDecision (e : DecisionEngine) (item : Item) (p : UserProgress) : DecisionReason :=
  if item.id == "assorted_seeds" then
    finalizeDecision e item
      { decision := .keep,
        reasons := ["Valuable currency item", "Used for trading with Celeste"] }
  else if item.rarity.map toLowerStr == some "legendary" then
    finalizeDecision e item
      { decision := .keep,
        reasons := ["Legendary rarity - extremely valuable", "Keep all legendaries"] }
  else if item.type == "Blueprint" then
    finalizeDecision e item
      { decision := .situational,
        reasons := ["Blueprint - valuable for unlocking crafting recipes",
                    "Review carefully before selling or recycling"] }
  else if item.type == "Weapon" || isWeaponVariantChars item.id.data then
    finalizeDecision e item
      { decision := .situational,
        reasons := ["Weapon - review based on your current loadout",
                    "Consider tier and your play style"] }
  else if item.type == "Ammunition" then
    finalizeDecision e item
      { decision := .situational,
        reasons := ["Ammunition - essential for weapons",
                    "Review based on your weapon loadout"] }
  else if item.type == "Quick Use" then
    finalizeDecision e item
      { decision := .situational,
        reasons := ["Consumable item - grenades, healing items, etc.",
                    "Review based on your current inventory needs"] }
  else if item.type == "Key" then
    finalizeDecision e item
      { decision := .situational,
        reasons := ["Key - opens locked areas and containers",
                    "Review based on areas you want to access"] }
  else if !(activeQuestNames e item p).isEmpty then
    finalizeDecision e item
      { decision := .keep,
        reasons := ["Required for quest: "
                      ++ String.intercalate ", " (activeQuestNames e item p)],
        dependencies := activeQuestNames e item p }
  else if !(activeProjectNames e item p).isEmpty then
    finalizeDecision e item
      { decision := .keep,
        reasons := ["Needed for project: "
                      ++ String.intercalate ", " (activeProjectNames e item p)],
        dependencies := activeProjectNames e item p }
  else if !(upgradeNames e item p).isEmpty then
    finalizeDecision e item
      { decision := .keep,
        reasons := ["Required for hideout upgrade: "
                      ++ String.intercalate ", " (upgradeNames e item p)],
        dependencies := upgradeNames e item p }
  else if (evaluateCraftingValue e item).isValuable then
    finalizeDecision e item
      { decision := .situational,
        reasons := ["Used in " ++ toString (evaluateCraftingValue e item).recipeCount
                      ++ " crafting recipes",
                    (evaluateCraftingValue e item).details] }
  else if isHighValueTrinket item then
    finalizeDecision e item
      { decision := .sell_or_recycle,
        reasons := ["High value (" ++ toString item.value ++ " coins)",
                    "No crafting or upgrade use"] }
  else if !((recycleData item).getD []).isEmpty && (evaluateRecycleValue e item).isValuable then
    finalizeDecision e item
      { decision := .sell_or_recycle,
        reasons := ["Recycles into: " ++ (evaluateRecycleValue e item).description,
                    "Recycle value: Components ("
                      ++ toString (evaluateRecycleValue e item).estimatedValue
                      ++ " coins) worth less than Item (" ++ toString item.value ++ " coins)"] }
  else if rarityRareEpic item then
    finalizeDecision e item
      { decision := .situational,
        reasons := [capitalizeStr (item.rarity.getD "") ++ " rarity",
                    "May have future use - review carefully"] }
  else
    finalizeDecision e item
      { decision := .sell_or_recycle,
        reasons := ["No immediate use found", "Safe to sell or recycle"] }

/-- this.items.values(): insertion order of the id-keyed map — first
occurrence order of ids, each carrying the last item written for that id. -/
def itemsValues (items : List Item) : List Item :=
  items.foldl (fun acc it =>
    if acc.any (fun a => a.id == it.id) then
      acc.map (fun a => if a.id == it.id then it else a)
    else acc ++ [it]) []

/-- DecisionEngine.getItemsWithDecisions. -/
def getItemsWithDecisions (e : DecisionEngine) (p : UserProgress) :
    List (Item × DecisionReason) :=
  (itemsValues e.items).map (fun it => (it, getDecision e it p))

/-- The three-bucket statistics record. -/
structure DecisionStats where
  keep : Nat
  sell_or_recycle : Nat
  situational : Nat
  deriving DecidableEq, Repr

/-- DecisionEngine.getDecisionStats. -/
def getDecisionStats (e : DecisionEngine) (p : UserProgress) : DecisionStats :=
  { keep := ((itemsValues e.items).filter
      (fun it => (getDecision e it p).decision == .keep)).length,
    sell_or_recycle := ((itemsValues e.items).filter
      (fun it => (getDecision e it p).decision == .sell_or_recycle)).length,
    situational := ((itemsValues e.items).filter
      (fun it => (getDecision e it p).decision == .situational)).length }

/-- DecisionEngine.getItemsUsingIngredient: resolve the reverse-index ids in
the catalog, dropping unresolved ids. -/
def getItemsUsingIngredient (e : DecisionEngine) (itemId : String) : List Item :=
  (buildReverseRecipeIndex e.items itemId).filterMap (fun id => lookupItem e.items id)

/-! ## The canonical cascade of the spec (section 4.4), for the refinement claim -/

/-- Guard of each numbered step of the canonical cascade, written from the
wording of the spec, section 4.4; step 15 is the unconditional default. -/
def specStepGuard (e : DecisionEngine) (item : Item) (p : UserProgress) : Nat → Bool
  | 1 => item.id == "assorted_seeds"
  | 2 => item.rarity.map toLowerStr == some "legendary"
  | 3 => item.type == "Blueprint"
  | 4 => item.type == "Weapon" || isWeaponVariantChars item.id.data
  | 5 => item.type == "Ammunition"
  | 6 => item.type == "Quick Use"
  | 7 => item.type == "Key"
  | 8 => !(activeQuestNames e item p).isEmpty
  | 9 => !(activeProjectNames e item p).isEmpty
  | 10 => !(upgradeNames e item p).isEmpty
  | 11 => (evaluateCraftingValue e item).isValuable
  | 12 => isHighValueTrinket item
  | 13 => !((recycleData item).getD []).isEmpty && (evaluateRecycleValue e item).isValuable
  | 14 => rarityRareEpic item
  | 15 => true
  | _ => false

/-- Verdict produced by each numbered step of the canonical cascade (before
the finishing pass). -/
def specStepVerdict (e : DecisionEngine) (item : Item) (p : UserProgress) : Nat → DecisionReason
  | 1 =>
    { decision := .keep,
      reasons := ["Valuable currency item", "Used for trading with Celeste"] }
  | 2 =>
    { decision := .keep,
      reasons := ["Legendary rarity - extremely valuable", "Keep all legendaries"] }
  | 3 =>
    { decision := .situational,
      reasons := ["Blueprint - valuable for unlocking crafting recipes",
                  "Review carefully before selling or recycling"] }
  | 4 =>
    { decision := .situational,
      reasons := ["Weapon - review based on your current loadout",
                  "Consider tier and your play style"] }
  | 5 =>
    { decision := .situational,
      reasons := ["Ammunition - essential for weapons",
                  "Review based on your weapon loadout"] }
  | 6 =>
    { decision := .situational,
      reasons := ["Consumable item - grenades, healing items, etc.",
                  "Review based on your current inventory needs"] }
  | 7 =>
    { decision := .situational,
      reasons := ["Key - opens locked areas and containers",
                  "Review based on areas you want to access"] }
  | 8 =>
    { decision := .keep,
      reasons := ["Required for quest: "
                    ++ String.intercalate ", " (activeQuestNames e item p)],
      dependencies := activeQuestNames e item p }
  | 9 =>
    { decision := .keep,
      reasons := ["Needed for project: "
                    ++ String.intercalate ", " (activeProjectNames e item p)],
      dependencies := activeProjectNames e item p }
  | 10 =>
    { decision := .keep,
      reasons := ["Required for hideout upgrade: "
                    ++ String.intercalate ", " (upgradeNames e item p)],
      dependencies := upgradeNames e item p }
  | 11 =>
    { decision := .situational,
      reasons := ["Used in " ++ toString (evaluateCraftingValue e item).recipeCount
                    ++ " crafting recipes",
                  (evaluateCraftingValue e item).details] }
  | 12 =>
    { decision := .sell_or_recycle,
      reasons := ["High value (" ++ toString item.value ++ " coins)",
                  "No crafting or upgrade use"] }
  | 13 =>
    { decision := .sell_or_recycle,
      reasons := ["Recycles into: " ++ (evaluateRecycleValue e item).description,
                  "Recycle value: Components ("
                    ++ toString (evaluateRecycleValue e item).estimatedValue
                    ++ " coins) worth less than Item (" ++ toString item.value ++ " coins)"] }
  | 14 =>
    { decision := .situational,
      reasons := [capitalizeStr (item.rarity.getD "") ++ " rarity",
                  "May have future use - review carefully"] }
  | _ =>
    { decision := .sell_or_recycle,
      reasons := ["No immediate use found", "Safe to sell or recycle"] }

/-- The cascade as an ordered list of guard/verdict pairs, steps 1 to 14 (15
is the default verdict handed to firstMatch). -/
def specCascade (e : DecisionEngine) (item : Item) (p : UserProgress) :
    List (Bool × DecisionReason) :=
  [ (specStepGuard e item p 1, specStepVerdict e item p 1),
    (specStepGuard e item p 2, specStepVerdict e item p 2),
    (specStepGuard e item p 3, specStepVerdict e item p 3),
    (specStepGuard e item p 4, specStepVerdict e item p 4),
    (specStepGuard e item p 5, specStepVerdict e item p 5),
    (specStepGuard e item p 6, specStepVerdict e item p 6),
    (specStepGuard e item p 7, specStepVerdict e item p 7),
    (specStepGuard e item p 8, specStepVerdict e item p 8),
    (specStepGuard e item p 9, specStepVerdict e item p 9),
    (specStepGuard e item p 10, specStepVerdict e item p 10),
    (specStepGuard e item p 11, specStepVerdict e item p 11),
    (specStepGuard e item p 12, specStepVerdict e item p 12),
    (specStepGuard e item p 13, specStepVerdict e item p 13),
    (specStepGuard e item p 14, specStepVerdict e item p 14) ]

/-- Return the verdict of the first matching check, or the default. -/
def firstMatch : List (Bool × DecisionReason) → DecisionReason → DecisionReason
  | [], dflt => dflt
  | gv :: rest, dflt => if gv.1 then gv.2 else firstMatch rest dflt

/-- The classifier as the spec words it: first matching check of the ordered
cascade, then the finishing pass. -/
def specClassify (e : DecisionEngine) (item : Item) (p : UserProgress) : DecisionReason :=
  finalizeDecision e item
    (firstMatch (specCascade e item p) (specStepVerdict e item p 15))

/-! ## Spec-side formulations used to state claims -/

/-- The recycle-output sum exactly as the spec words it: over every entry of
a mapping, add outputItem.value times quantity when the output id resolves in
the catalog, and contribute zero (skip silently) when it does not. -/
def specSumOverData (e : DecisionEngine) (entries : List (String × Nat)) : Int :=
  entries.foldl (fun acc kv =>
    match lookupItem e.items kv.1 with
    | some oi => acc + oi.value * (kv.2 : Int)
    | none => acc) 0

/-- The recycle-output sum of the item, over the mapping the source actually
selects (first defined of recyclesInto, salvagesInto, crafting). -/
def specRecycleSum (e : DecisionEngine) (item : Item) : Int :=
  specSumOverData e ((recycleData item).getD [])

/-- The selection the claim describes: the first NON-EMPTY of the three
mappings, in priority order (recyclesInto, salvagesInto, crafting). -/
def firstNonEmptyRecycleData (item : Item) : Option (List (String × Nat)) :=
  if !(item.recyclesInto.getD []).isEmpty then item.recyclesInto
  else if !(item.salvagesInto.getD []).isEmpty then item.salvagesInto
  else if !(item.crafting.getD []).isEmpty then item.crafting
  else none

/-! ## Concrete fixtures for witnesses and counterexamples -/

/-- Empty player progress. -/
def WemptyP : UserProgress := ⟨[], [], []⟩

/-- An engine over an empty data set. -/
def Wempty : DecisionEngine := ⟨[], [], [], []⟩

/-- A plain material worth 100, recyclable into 2 itemA + 1 itemB plus one
dangling output id. -/
def Wbox : Item :=
  ⟨"box", "Box", "Material", some "common", 100,
    some [("itemA", 2), ("itemB", 1), ("ghost", 9)], none, none, none⟩

/-- Recycle output worth 30. -/
def WitemA : Item := ⟨"itemA", "A", "Material", some "common", 30, none, none, none, none⟩

/-- Recycle output worth 50. -/
def WitemB : Item := ⟨"itemB", "B", "Material", some "common", 50, none, none, none, none⟩

/-- A catalog holding the two resolvable recycle outputs and the box. -/
def WengineBox : DecisionEngine := ⟨[WitemA, WitemB, Wbox], [], [], []⟩

/-- A common material, itself recyclable into five scrap, used as an
ingredient by three other items. -/
def Wmat : Item :=
  ⟨"mat", "Mat", "Material", some "common", 1, some [("scrap", 5)], none, none, none⟩

/-- The scrap output, worth 10. -/
def Wscrap : Item := ⟨"scrap", "Scrap", "Material", some "common", 10, none, none, none, none⟩

/-- A consumer item whose recipe uses mat. -/
def Wconsumer (n : String) : Item :=
  ⟨n, n, "Material", some "common", 1, none, none, none, some [("mat", 1)]⟩

/-- Catalog: mat, its scrap output, and three consumers of mat. -/
def WengineMat : DecisionEngine :=
  ⟨[Wmat, Wscrap, Wconsumer "c1", Wconsumer "c2", Wconsumer "c3"], [], [], []⟩

/-- The always-keep special-case id carrying legendary rarity: the input on
which the legendary-reason claim fails. -/
def WseedsLeg : Item :=
  ⟨"assorted_seeds", "Assorted Seeds", "Material", some "legendary", 5, none, none, none, none⟩

/-- An ordinary legendary item. -/
def WlegCrown : Item :=
  ⟨"gold_crown", "Gold Crown", "Trinket", some "legendary", 10, none, none, none, none⟩

/-- A quest-required material. -/
def Wwidget : Item := ⟨"widget", "Widget", "Material", some "common", 1, none, none, none, none⟩

/-- A quest requiring the widget. -/
def Wq1 : Quest := ⟨"q1", "First Quest", some [⟨"widget", 1⟩], none⟩

/-- Catalog with one quest over the widget. -/
def WengineQuest : DecisionEngine := ⟨[Wwidget], [], [Wq1], []⟩

/-- A weapon variant by naming convention only: Roman-numeral suffix with a
non-weapon declared type. -/
def Wrifle : Item := ⟨"rifle_iii", "Rifle III", "Gadget", some "common", 5, none, none, none, none⟩

/-- A hideout material. -/
def Wscrew : Item := ⟨"screw", "Screw", "Material", some "common", 1, none, none, none, none⟩

/-- A module (max level 3) requiring screws at levels 2 and 3. -/
def Wscrappy : HideoutModule :=
  ⟨"m1", "Scrappy", 3,
    [⟨1, some []⟩, ⟨2, some [⟨"screw", 2⟩]⟩, ⟨3, some [⟨"screw", 4⟩]⟩]⟩

/-- A maxed-out module (max level 1) whose level 1 references the screw. -/
def Wmaxed : HideoutModule := ⟨"m2", "Gunsmith", 1, [⟨1, some [⟨"screw", 8⟩]⟩]⟩

/-- Catalog with the two modules above. -/
def WengineHideout : DecisionEngine := ⟨[Wscrew], [Wscrappy, Wmaxed], [], []⟩

/-- A module (max level 2) requiring screws only at level 1. -/
def Wscrappy2 : HideoutModule := ⟨"m1", "Scrappy", 2, [⟨1, some [⟨"screw", 2⟩]⟩]⟩

/-- Catalog for the negative-level counterexample. -/
def WengineNeg : DecisionEngine := ⟨[Wscrew], [Wscrappy2], [], []⟩

/-- Progress recording a negative level for module m1. -/
def WnegP : UserProgress := ⟨[("m1", -1)], [], []⟩

/-- An item whose recyclesInto is present but EMPTY while its salvagesInto
is nonempty and valuable. -/
def WemptyRecycle : Item :=
  ⟨"er", "ER", "Material", some "common", 10, some [], some [("gold", 1)], none, none⟩

/-- The gold output referenced by WemptyRecycle.salvagesInto. -/
def Wgold : Item := ⟨"gold", "Gold", "Material", some "common", 100, none, none, none, none⟩

/-- Catalog able to resolve the gold output. -/
def WengineER : DecisionEngine := ⟨[Wgold], [], [], []⟩

/-- A quest requiring the box, so the box is kept by the quest rule. -/
def WqBox : Quest := ⟨"qb", "Box Quest", some [⟨"box", 1⟩], none⟩

/-- Catalog where the box (value 100, recycle outputs worth 110) is also
required by an incomplete quest. -/
def WengineBoxQ : DecisionEngine := ⟨[WitemA, WitemB, Wbox], [], [WqBox], []⟩

/-! ## Helper lemmas -/

/-- The finishing pass never changes the decision. -/
theorem finalizeDecision_decision (e : DecisionEngine) (item : Item) (d : DecisionReason) :
    (finalizeDecision e item d).decision = d.decision := by
  unfold finalizeDecision
  cases hrd : recycleData item with
  | none => rfl
  | some entries =>
    dsimp only
    split <;> rfl

/-- The finishing pass never changes the reasons. -/
theorem finalizeDecision_reasons (e : DecisionEngine) (item : Item) (d : DecisionReason) :
    (finalizeDecision e item d).reasons = d.reasons := by
  unfold finalizeDecision
  cases hrd : recycleData item with
  | none => rfl
  | some entries =>
    dsimp only
    split <;> rfl

/-- The finishing pass never changes the dependencies. -/
theorem finalizeDecision_dependencies (e : DecisionEngine) (item : Item) (d : DecisionReason) :
    (finalizeDecision e item d).dependencies = d.dependencies := by
  unfold finalizeDecision
  cases hrd : recycleData item with
  | none => rfl
  | some entries =>
    dsimp only
    split <;> rfl

/-- The flag after the finishing pass: the incoming flag, or the strict
excess condition on nonempty recycle data. -/
theorem finalizeDecision_flag (e : DecisionEngine) (item : Item) (d : DecisionReason) :
    (finalizeDecision e item d).recycleValueExceedsItem
      = (d.recycleValueExceedsItem
          || (!((recycleData item).getD []).isEmpty
                && decide ((evaluateRecycleValue e item).estimatedValue > item.value))) := by
  unfold finalizeDecision
  cases hrd : recycleData item with
  | none => simp
  | some entries =>
    dsimp only [Option.getD]
    split
    · next hcond => rw [hcond]; simp
    · next hcond =>
      have hf : (!entries.isEmpty
          && decide ((evaluateRecycleValue e item).estimatedValue > item.value)) = false := by
        cases hb : (!entries.isEmpty
            && decide ((evaluateRecycleValue e item).estimatedValue > item.value)) with
        | false => rfl
        | true => exact absurd hb hcond
      rw [hf]
      simp

/-- The integer form of the half-value threshold is the literal rational
form of the source, totalValue > item.value * 0.5. -/
theorem half_value_bridge (total v : Int) :
    2 * total > v ↔ (total : ℚ) > (v : ℚ) * (1 / 2) := by
  rw [gt_iff_lt, gt_iff_lt, mul_one_div, div_lt_iff₀ (by norm_num : (0 : ℚ) < 2)]
  constructor <;> intro h
  · exact_mod_cast (by linarith [(by exact_mod_cast h : (v : ℚ) < 2 * (total : ℚ))] :
      (v : ℚ) < (total : ℚ) * 2)
  · exact_mod_cast (by linarith : (v : ℚ) < 2 * (total : ℚ))

set_option maxRecDepth 4000 in
/-- getDecision agrees with the first-match evaluation of the ordered
cascade. -/
theorem getDecision_eq_specClassify (e : DecisionEngine) (item : Item) (p : UserProgress) :
    getDecision e item p = specClassify e item p := by
  simp only [specClassify, specCascade, firstMatch]
  simp only [specStepGuard, specStepVerdict]
  simp only [apply_ite (finalizeDecision e item)]
  simp only [getDecision]

/-- Each cascade step hands a flag-false verdict to the finishing pass. -/
theorem specStepVerdict_flag (e : DecisionEngine) (item : Item) (p : UserProgress) (k : Nat) :
    (specStepVerdict e item p k).recycleValueExceedsItem = false := by
  unfold specStepVerdict
  split <;> rfl

/-- firstMatch preserves a property holding of every listed verdict and of
the default. -/
theorem firstMatch_flag (l : List (Bool × DecisionReason)) (dflt : DecisionReason)
    (hl : ∀ gv ∈ l, gv.2.recycleValueExceedsItem = false)
    (hd : dflt.recycleValueExceedsItem = false) :
    (firstMatch l dflt).recycleValueExceedsItem = false := by
  induction l with
  | nil => exact hd
  | cons gv rest ih =>
    simp only [firstMatch]
    split
    · exact hl gv (List.mem_cons_self gv rest)
    · exact ih (fun x hx => hl x (List.mem_cons_of_mem _ hx))

/-- C1: getDecision is exactly the first-match evaluation of the canonical
ordered cascade (steps 1 to 15, finishing pass included); in particular,
whenever none of steps 1 to 10 matches while both the crafting-value check
(step 11) and the recycle-value check (step 13) match, the verdict is the
crafting-value one: situational. -/
theorem C1_cascade_first_match (e : DecisionEngine) (item : Item) (p : UserProgress) :
    getDecision e item p = specClassify e item p ∧
    ((∀ k, k ∈ [1, 2, 3, 4, 5, 6, 7, 8, 9, 10] → specStepGuard e item p k = false) →
      specStepGuard e item p 11 = true →
      specStepGuard e item p 13 = true →
      (getDecision e item p).decision = .situational) := by
  refine ⟨getDecision_eq_specClassify e item p, ?_⟩
  · intro h h11 h13
    have h1 := h 1 (by decide)
    have h2 := h 2 (by decide)
    have h3 := h 3 (by decide)
    have h4 := h 4 (by decide)
    have h5 := h 5 (by decide)
    have h6 := h 6 (by decide)
    have h7 := h 7 (by decide)
    have h8 := h 8 (by decide)
    have h9 := h 9 (by decide)
    have h10 := h 10 (by decide)
    simp only [specStepGuard] at h1 h2 h3 h4 h5 h6 h7 h8 h9 h10 h11
    simp [getDecision, h1, h2, h3, h4, h5, h6, h7, h8, h9, h10, h11,
      finalizeDecision_decision]

/-- C1 witness: on a concrete item for which steps 1 to 10 fail while both
the crafting-value and the recycle-value checks hold, the cascade equality
applies and the verdict is situational. -/
theorem C1_cascade_first_match_witness :
    (getDecision WengineMat Wmat WemptyP).decision = .situational
      ∧ getDecision WengineMat Wmat WemptyP = specClassify WengineMat Wmat WemptyP :=
  ⟨(C1_cascade_first_match WengineMat Wmat WemptyP).2 (by decide) (by decide) (by decide),
   (C1_cascade_first_match WengineMat Wmat WemptyP).1⟩

/-- Every branch of getDecision hands a flag-false verdict to the finishing
pass. -/
theorem getDecision_base (e : DecisionEngine) (item : Item) (p : UserProgress) :
    ∃ d, getDecision e item p = finalizeDecision e item d
      ∧ d.recycleValueExceedsItem = false := by
  refine ⟨firstMatch (specCascade e item p) (specStepVerdict e item p 15),
    getDecision_eq_specClassify e item p, ?_⟩
  refine firstMatch_flag _ _ ?_ (specStepVerdict_flag e item p 15)
  intro gv hgv
  simp only [specCascade, List.mem_cons, List.not_mem_nil, or_false] at hgv
  rcases hgv with rfl | rfl | rfl | rfl | rfl | rfl | rfl | rfl | rfl | rfl | rfl | rfl | rfl | rfl
  all_goals exact specStepVerdict_flag e item p _

/-- Summing quantity-weighted values over resolvable entries: the filterMap
formulation of the source equals the silently-skipping formulation of the
spec. -/
theorem foldl_resolved_eq (items : List Item) (entries : List (String × Nat)) :
    ∀ acc : Int,
      ((entries.filterMap (fun kv => (lookupItem items kv.1).map (fun oi => (kv.2, oi)))).foldl
          (fun a qo => a + qo.2.value * (qo.1 : Int)) acc)
        = entries.foldl (fun a kv =>
            match lookupItem items kv.1 with
            | some oi => a + oi.value * (kv.2 : Int)
            | none => a) acc := by
  induction entries with
  | nil => intro acc; rfl
  | cons kv rest ih =>
    intro acc
    cases hlk : lookupItem items kv.1 with
    | none => simp [List.filterMap_cons, hlk, ih]
    | some oi => simp [List.filterMap_cons, hlk, ih]

/-- The estimated recycle value is the spec-worded skip-sum over the selected
mapping. -/
theorem estimatedValue_eq_specRecycleSum (e : DecisionEngine) (item : Item) :
    (evaluateRecycleValue e item).estimatedValue = specRecycleSum e item := by
  unfold evaluateRecycleValue specRecycleSum specSumOverData
  cases hrd : recycleData item with
  | none => rfl
  | some entries =>
    cases entries with
    | nil => rfl
    | cons kv rest =>
      simp only [Option.getD, List.isEmpty_cons, Bool.false_eq_true, if_false]
      exact foldl_resolved_eq e.items (kv :: rest) 0

/-- C2: regardless of which cascade step produced the verdict, the returned
recycleValueExceedsItem flag is set exactly when the selected recycle-output
mapping is nonempty and the sum of output value times quantity over its
resolvable entries strictly exceeds the item value. -/
theorem C2_finishing_pass_flag (e : DecisionEngine) (item : Item) (p : UserProgress) :
    (getDecision e item p).recycleValueExceedsItem = true
      ↔ ((recycleData item).getD [] ≠ [] ∧ specRecycleSum e item > item.value) := by
  obtain ⟨d, hd, hflag⟩ := getDecision_base e item p
  rw [hd, finalizeDecision_flag, hflag, Bool.false_or]
  simp only [estimatedValue_eq_specRecycleSum]
  simp [Bool.and_eq_true, List.isEmpty_iff, decide_eq_true_iff]

/-- C3 counterexample: the designated always-keep id with legendary rarity.
Step 1 fires before the legendary step, so the verdict is keep but no reason
mentions Legendary, refuting the reason half of the claim as stated. -/
theorem C3_counterexample_seed :
    WseedsLeg.rarity = some "legendary"
      ∧ (getDecision Wempty WseedsLeg WemptyP).decision = .keep
      ∧ (getDecision Wempty WseedsLeg WemptyP).reasons.any
          (fun r => occursIn r "Legendary") = false := by
  refine ⟨rfl, ?_, ?_⟩ <;> decide

/-- C3 amended: every legendary-rarity item is kept under every progress
snapshot, and unless it is the designated always-keep special-case id
(assorted_seeds, whose step fires first), some reason mentions Legendary. -/
theorem C3_legendary_keep (e : DecisionEngine) (item : Item) (p : UserProgress)
    (h : item.rarity = some "legendary") :
    (getDecision e item p).decision = .keep
      ∧ (item.id ≠ "assorted_seeds" →
          ∃ r ∈ (getDecision e item p).reasons, occursIn r "Legendary" = true) := by
  by_cases hid : (item.id == "assorted_seeds") = true
  · constructor
    · simp only [getDecision, hid, if_true, finalizeDecision_decision]
    · intro hne
      exact absurd (eq_of_beq hid) hne
  · have hid' : (item.id == "assorted_seeds") = false := by
      cases hb : item.id == "assorted_seeds" with
      | false => rfl
      | true => exact absurd hb hid
    have hleg : (item.rarity.map toLowerStr == some "legendary") = true := by
      rw [h]
      decide
    constructor
    · simp only [getDecision, hid', hleg, Bool.false_eq_true, if_false, if_true,
        finalizeDecision_decision]
    · intro _
      refine ⟨"Legendary rarity - extremely valuable", ?_, by decide⟩
      simp only [getDecision, hid', hleg, Bool.false_eq_true, if_false, if_true,
        finalizeDecision_reasons]
      exact List.mem_cons_self _ _

/-- C3 witness: a concrete legendary item is kept with a Legendary reason. -/
theorem C3_legendary_keep_witness :
    (getDecision Wempty WlegCrown WemptyP).decision = .keep
      ∧ ∃ r ∈ (getDecision Wempty WlegCrown WemptyP).reasons, occursIn r "Legendary" = true := by
  have h := C3_legendary_keep Wempty WlegCrown WemptyP rfl
  exact ⟨h.1, h.2 (by decide)⟩

/-- evaluateRecycleValue depends on the engine only through its item list. -/
theorem evaluateRecycleValue_congr {e₁ e₂ : DecisionEngine} (h : e₁.items = e₂.items)
    (item : Item) : evaluateRecycleValue e₁ item = evaluateRecycleValue e₂ item := by
  unfold evaluateRecycleValue
  rw [h]

/-- finalizeDecision depends on the engine only through its item list. -/
theorem finalizeDecision_congr {e₁ e₂ : DecisionEngine} (h : e₁.items = e₂.items)
    (item : Item) (d : DecisionReason) :
    finalizeDecision e₁ item d = finalizeDecision e₂ item d := by
  unfold finalizeDecision
  rw [evaluateRecycleValue_congr h]

/-- evaluateCraftingValue depends on the engine only through its item list. -/
theorem evaluateCraftingValue_congr {e₁ e₂ : DecisionEngine} (h : e₁.items = e₂.items)
    (item : Item) : evaluateCraftingValue e₁ item = evaluateCraftingValue e₂ item := by
  unfold evaluateCraftingValue
  rw [h]

/-- getDecision depends on the engine and the progress snapshot only through
the item list and the three resolver outputs. -/
theorem getDecision_congr {e₁ e₂ : DecisionEngine} {p₁ p₂ : UserProgress} (item : Item)
    (hitems : e₁.items = e₂.items)
    (hq : activeQuestNames e₁ item p₁ = activeQuestNames e₂ item p₂)
    (hpr : activeProjectNames e₁ item p₁ = activeProjectNames e₂ item p₂)
    (hup : upgradeNames e₁ item p₁ = upgradeNames e₂ item p₂) :
    getDecision e₁ item p₁ = getDecision e₂ item p₂ := by
  simp only [getDecision, hq, hpr, hup, evaluateCraftingValue_congr hitems,
    evaluateRecycleValue_congr hitems, finalizeDecision_congr hitems]

/-- Marking a quest id completed acts on the quest resolver exactly like
deleting every quest with that id from the engine. -/
theorem activeQuestNames_complete_erase (e : DecisionEngine) (item : Item) (p : UserProgress)
    (qid : String) :
    activeQuestNames e item { p with completedQuests := qid :: p.completedQuests }
      = activeQuestNames { e with quests := e.quests.filter (fun q2 => q2.id != qid) } item
          p := by
  unfold activeQuestNames
  rw [List.filter_filter]
  apply congrArg
  apply List.filter_congr
  intro q2 _
  by_cases hq : q2.id = qid
  · simp [hq]
  · simp [hq, List.contains_cons, bne]

/-- C4: an item referenced (as requirement or reward) by an incomplete quest
and not matched by steps 1 to 7 is kept, with the dependencies being exactly
the names of the matching incomplete quests in quest-list iteration order
(hence containing that quest's name); and adding that quest's id to
completedQuests yields the very verdict of an engine from which every quest
with that id has been removed, so the new verdict cannot cite the quest. -/
theorem C4_quest_resolver (e : DecisionEngine) (item : Item) (p : UserProgress) (q : Quest)
    (h17 : ∀ k, k ∈ [1, 2, 3, 4, 5, 6, 7] → specStepGuard e item p k = false)
    (hq : q ∈ e.quests)
    (hnc : q.id ∉ p.completedQuests)
    (hm : questMatchesItem q item = true) :
    (getDecision e item p).decision = .keep
      ∧ (getDecision e item p).dependencies = activeQuestNames e item p
      ∧ q.name ∈ activeQuestNames e item p
      ∧ getDecision e item { p with completedQuests := q.id :: p.completedQuests }
          = getDecision { e with quests := e.quests.filter (fun q2 => q2.id != q.id) } item
              p := by
  have hmem : q ∈ e.quests.filter
      (fun q2 => !p.completedQuests.contains q2.id && questMatchesItem q2 item) := by
    rw [List.mem_filter]
    refine ⟨hq, ?_⟩
    rw [hm]
    simp [hnc]
  have hname : q.name ∈ activeQuestNames e item p :=
    List.mem_map_of_mem (fun q2 => q2.name) hmem
  have hg8 : (!(activeQuestNames e item p).isEmpty) = true := by
    cases hL : activeQuestNames e item p with
    | nil => rw [hL] at hname; exact absurd hname (List.not_mem_nil _)
    | cons a rest => rfl
  have h1 := h17 1 (by decide)
  have h2 := h17 2 (by decide)
  have h3 := h17 3 (by decide)
  have h4 := h17 4 (by decide)
  have h5 := h17 5 (by decide)
  have h6 := h17 6 (by decide)
  have h7 := h17 7 (by decide)
  simp only [specStepGuard] at h1 h2 h3 h4 h5 h6 h7
  refine ⟨?_, ?_, hname, ?_⟩
  · simp only [getDecision, h1, h2, h3, h4, h5, h6, h7, hg8, Bool.false_eq_true,
      if_false, if_true, finalizeDecision_decision]
  · simp only [getDecision, h1, h2, h3, h4, h5, h6, h7, hg8, Bool.false_eq_true,
      if_false, if_true, finalizeDecision_dependencies]
  · exact getDecision_congr item rfl
      (activeQuestNames_complete_erase e item p q.id) rfl rfl

/-- C4 witness: a concrete incomplete quest requiring the widget keeps it
and cites the quest; completing the quest removes the citation. -/
theorem C4_quest_resolver_witness :
    (getDecision WengineQuest Wwidget WemptyP).decision = .keep
      ∧ "First Quest" ∈ (getDecision WengineQuest Wwidget WemptyP).dependencies
      ∧ getDecision WengineQuest Wwidget
            { WemptyP with completedQuests := Wq1.id :: WemptyP.completedQuests }
          = getDecision
              { WengineQuest with
                  quests := WengineQuest.quests.filter (fun q2 => q2.id != Wq1.id) }
              Wwidget WemptyP := by
  have h := C4_quest_resolver WengineQuest Wwidget WemptyP Wq1
    (by decide) (by decide) (by decide) (by decide)
  refine ⟨h.1, ?_, h.2.2.2⟩
  rw [h.2.1]
  exact h.2.2.1

/-- C5: an item of type Weapon, or whose id matches the weapon-variant
naming convention, that is not matched by steps 1 to 3, is classified
situational regardless of progress and of its declared type. -/
theorem C5_weapon_situational (e : DecisionEngine) (item : Item) (p : UserProgress)
    (h4 : item.type = "Weapon" ∨ isWeaponVariantChars item.id.data = true)
    (h1 : item.id ≠ "assorted_seeds")
    (h2 : item.rarity.map toLowerStr ≠ some "legendary")
    (h3 : item.type ≠ "Blueprint") :
    (getDecision e item p).decision = .situational := by
  have hb1 : (item.id == "assorted_seeds") = false := by
    cases hb : item.id == "assorted_seeds" with
    | false => rfl
    | true => exact absurd (eq_of_beq hb) h1
  have hb2 : (item.rarity.map toLowerStr == some "legendary") = false := by
    cases hb : item.rarity.map toLowerStr == some "legendary" with
    | false => rfl
    | true => exact absurd (eq_of_beq hb) h2
  have hb3 : (item.type == "Blueprint") = false := by
    cases hb : item.type == "Blueprint" with
    | false => rfl
    | true => exact absurd (eq_of_beq hb) h3
  have hb4 : (item.type == "Weapon" || isWeaponVariantChars item.id.data) = true := by
    rcases h4 with h | h
    · simp [h]
    · simp [h]
  simp only [getDecision, hb1, hb2, hb3, hb4, Bool.false_eq_true, if_false, if_true,
    finalizeDecision_decision]

/-- C5 witness: the id rifle_iii with a non-weapon declared type is routed
through the naming rule to situational. -/
theorem C5_weapon_situational_witness :
    Wrifle.type = "Gadget" ∧ (getDecision Wempty Wrifle WemptyP).decision = .situational := by
  refine ⟨rfl, ?_⟩
  exact C5_weapon_situational Wempty Wrifle WemptyP (Or.inr (by decide))
    (by decide) (by decide) (by decide)

/-- C6: the hideout resolver contributes nothing for a module at or above
its max level; a non-maxed module contributes exactly one entry, named
module (Level N), per level strictly above its current level whose
requirement list references the item (so one module can contribute several
entries); and, when steps 1 to 9 do not match, the verdict is the step-10
keep exactly when at least one entry exists, the dependencies then being the
collected entries. -/
theorem C6_hideout_resolver (e : DecisionEngine) (item : Item) (p : UserProgress) :
    (∀ m : HideoutModule, currentLevelOf p m.id ≥ m.maxLevel → moduleEntries p item m = [])
    ∧ (∀ m : HideoutModule, ¬ currentLevelOf p m.id ≥ m.maxLevel →
        moduleEntries p item m
          = (m.levels.filter (fun L =>
              decide (currentLevelOf p m.id < L.level)
                && (L.requirementItemIds.getD []).any (fun r => r.item_id == item.id))).map
              (fun L => m.name ++ " (Level " ++ toString L.level ++ ")"))
    ∧ ((∀ k, k ∈ [1, 2, 3, 4, 5, 6, 7, 8, 9] → specStepGuard e item p k = false) →
        (((getDecision e item p).decision = .keep ↔ upgradeNames e item p ≠ [])
          ∧ (upgradeNames e item p ≠ [] →
              (getDecision e item p).dependencies = upgradeNames e item p))) := by
  refine ⟨?_, ?_, ?_⟩
  · intro m hm
    unfold moduleEntries
    rw [if_pos hm]
  · intro m hm
    unfold moduleEntries
    rw [if_neg hm]
    cases hL : m.levels with
    | nil => simp
    | cons L0 rest =>
      rw [if_neg (by simp)]
      apply congrArg
      apply List.filter_congr
      intro L _
      cases hrs : L.requirementItemIds.getD [] with
      | nil => simp [hrs]
      | cons r rs => simp [hrs]
  · intro h
    have h1 := h 1 (by decide)
    have h2 := h 2 (by decide)
    have h3 := h 3 (by decide)
    have h4 := h 4 (by decide)
    have h5 := h 5 (by decide)
    have h6 := h 6 (by decide)
    have h7 := h 7 (by decide)
    have h8 := h 8 (by decide)
    have h9 := h 9 (by decide)
    simp only [specStepGuard] at h1 h2 h3 h4 h5 h6 h7 h8 h9
    by_cases hup : upgradeNames e item p = []
    · have hg10 : (!(upgradeNames e item p).isEmpty) = false := by simp [hup]
      refine ⟨⟨?_, fun hne => absurd hup hne⟩, fun hne => absurd hup hne⟩
      intro hkeep
      simp only [getDecision, h1, h2, h3, h4, h5, h6, h7, h8, h9, hg10,
        Bool.false_eq_true, if_false] at hkeep
      exfalso
      repeat' split at hkeep
      all_goals simp [finalizeDecision_decision] at hkeep
    · have hg10 : (!(upgradeNames e item p).isEmpty) = true := by
        cases hL : upgradeNames e item p with
        | nil => exact absurd hL hup
        | cons a rest => rfl
      refine ⟨⟨fun _ => hup, fun _ => ?_⟩, fun _ => ?_⟩
      · simp only [getDecision, h1, h2, h3, h4, h5, h6, h7, h8, h9, hg10,
          Bool.false_eq_true, if_false, if_true, finalizeDecision_decision]
      · simp only [getDecision, h1, h2, h3, h4, h5, h6, h7, h8, h9, hg10,
          Bool.false_eq_true, if_false, if_true, finalizeDecision_dependencies]

/-- C6 witness: a maxed module contributes nothing, a non-maxed module
contributes its level-2 and level-3 entries for the same item, and the item
is kept with those dependencies. -/
theorem C6_hideout_resolver_witness :
    moduleEntries WemptyP Wscrew Wmaxed = []
      ∧ moduleEntries WemptyP Wscrew Wscrappy = ["Scrappy (Level 2)", "Scrappy (Level 3)"]
      ∧ (getDecision WengineHideout Wscrew WemptyP).decision = .keep
      ∧ (getDecision WengineHideout Wscrew WemptyP).dependencies
          = upgradeNames WengineHideout Wscrew WemptyP := by
  have h := C6_hideout_resolver WengineHideout Wscrew WemptyP
  refine ⟨h.1 Wmaxed (by decide), ?_, ?_, ?_⟩
  · rw [h.2.1 Wscrappy (by decide)]
    decide
  · exact ((h.2.2 (by decide)).1).mpr (by decide)
  · exact (h.2.2 (by decide)).2 (by decide)

/-- C7: the crafting-value check counts, through the reverse recipe index,
the catalog items whose recipe consumes this item (not the size of the
item's own recipe mapping), and deems the item valuable iff the count
exceeds 2, or is positive while the rarity is rare, epic or legendary;
consequently a common-rarity item used by exactly 3 other items and
unmatched by steps 1 to 10 is situational with a reason citing 3 crafting
recipes. -/
theorem C7_crafting_value (e : DecisionEngine) (item : Item) (p : UserProgress) :
    ((evaluateCraftingValue e item).recipeCount
        = (e.items.filter
            (fun it => (it.recipe.getD []).any (fun kv => kv.1 == item.id))).length
      ∧ ((evaluateCraftingValue e item).isValuable = true
          ↔ ((evaluateCraftingValue e item).recipeCount > 2
              ∨ ((evaluateCraftingValue e item).recipeCount > 0
                  ∧ item.rarity ∈ [some "rare", some "epic", some "legendary"]))))
    ∧ ((∀ k, k ∈ [1, 2, 3, 4, 5, 6, 7, 8, 9, 10] → specStepGuard e item p k = false) →
        (evaluateCraftingValue e item).recipeCount = 3 →
        ((getDecision e item p).decision = .situational
          ∧ "Used in 3 crafting recipes" ∈ (getDecision e item p).reasons)) := by
  have hcountEq : (evaluateCraftingValue e item).recipeCount
      = (e.items.filter
          (fun it => (it.recipe.getD []).any (fun kv => kv.1 == item.id))).length := by
    simp [evaluateCraftingValue, buildReverseRecipeIndex]
  have hvaliff : (evaluateCraftingValue e item).isValuable = true
      ↔ ((evaluateCraftingValue e item).recipeCount > 2
          ∨ ((evaluateCraftingValue e item).recipeCount > 0
              ∧ item.rarity ∈ [some "rare", some "epic", some "legendary"])) := by
    cases hr : item.rarity with
    | none => simp [evaluateCraftingValue, hr]
    | some r => simp [evaluateCraftingValue, hr, or_assoc]
  refine ⟨⟨hcountEq, hvaliff⟩, ?_⟩
  intro h hc3
  have hval : (evaluateCraftingValue e item).isValuable = true :=
    hvaliff.mpr (Or.inl (by rw [hc3]; omega))
  have h1 := h 1 (by decide)
  have h2 := h 2 (by decide)
  have h3 := h 3 (by decide)
  have h4 := h 4 (by decide)
  have h5 := h 5 (by decide)
  have h6 := h 6 (by decide)
  have h7 := h 7 (by decide)
  have h8 := h 8 (by decide)
  have h9 := h 9 (by decide)
  have h10 := h 10 (by decide)
  simp only [specStepGuard] at h1 h2 h3 h4 h5 h6 h7 h8 h9 h10
  constructor
  · simp only [getDecision, h1, h2, h3, h4, h5, h6, h7, h8, h9, h10, hval,
      Bool.false_eq_true, if_false, if_true, finalizeDecision_decision]
  · have hreasons : (getDecision e item p).reasons
        = ["Used in " ++ toString (evaluateCraftingValue e item).recipeCount
              ++ " crafting recipes",
            (evaluateCraftingValue e item).details] := by
      simp only [getDecision, h1, h2, h3, h4, h5, h6, h7, h8, h9, h10, hval,
        Bool.false_eq_true, if_false, if_true, finalizeDecision_reasons]
    rw [hreasons, hc3]
    refine List.mem_cons.mpr (Or.inl ?_)
    decide

/-- C7 witness: the fixture item is consumed by exactly three catalog items
and, under empty progress, lands on the crafting rule. -/
theorem C7_crafting_value_witness :
    (evaluateCraftingValue WengineMat Wmat).recipeCount = 3
      ∧ (getDecision WengineMat Wmat WemptyP).decision = .situational
      ∧ "Used in 3 crafting recipes" ∈ (getDecision WengineMat Wmat WemptyP).reasons := by
  have h := (C7_crafting_value WengineMat Wmat WemptyP).2 (by decide) (by decide)
  exact ⟨by decide, h.1, h.2⟩

/-- The valuable verdict of the recycle evaluator, characterized over the
skip-sum: nonempty selected mapping and sum exceeding half the item value. -/
theorem evaluateRecycleValue_isValuable (e : DecisionEngine) (item : Item) :
    (evaluateRecycleValue e item).isValuable
      = (!((recycleData item).getD []).isEmpty
          && decide (2 * specRecycleSum e item > item.value)) := by
  unfold evaluateRecycleValue specRecycleSum specSumOverData
  cases hrd : recycleData item with
  | none => rfl
  | some entries =>
    cases entries with
    | nil => rfl
    | cons kv rest =>
      simp only [Option.getD, List.isEmpty_cons, Bool.not_false, Bool.true_and,
        foldl_resolved_eq, Bool.false_eq_true, if_false]

/-- C8 counterexample: an item whose recyclesInto is present but EMPTY while
its salvagesInto is nonempty and valuable.  The JS || picks the first
DEFINED mapping, so the evaluator returns estimate 0 and not-valuable,
although the first NON-EMPTY mapping (salvagesInto, as the claim reads it)
sums to 100 and passes the half-value threshold. -/
theorem C8_counterexample :
    WemptyRecycle.recyclesInto = some []
      ∧ WemptyRecycle.salvagesInto = some [("gold", 1)]
      ∧ firstNonEmptyRecycleData WemptyRecycle = some [("gold", 1)]
      ∧ specSumOverData WengineER [("gold", 1)] = 100
      ∧ 2 * specSumOverData WengineER [("gold", 1)] > WemptyRecycle.value
      ∧ (evaluateRecycleValue WengineER WemptyRecycle).estimatedValue = 0
      ∧ (evaluateRecycleValue WengineER WemptyRecycle).isValuable = false := by
  exact ⟨rfl, rfl, by decide, by decide, by decide, by decide, by decide⟩

/-- C8 amended: the evaluator selects the first DEFINED (possibly empty) of
recyclesInto, salvagesInto and crafting; its estimate is the sum of output
value times quantity over the resolvable entries of that mapping, dangling
output ids silently contributing zero; and it is deemed valuable iff the
selected mapping is nonempty and the sum strictly exceeds half the item
value (the source comparison totalValue > item.value * 0.5). -/
theorem C8_recycle_evaluator (e : DecisionEngine) (item : Item) :
    (evaluateRecycleValue e item).estimatedValue = specRecycleSum e item
      ∧ ((evaluateRecycleValue e item).isValuable = true
          ↔ ((recycleData item).getD [] ≠ []
              ∧ ((specRecycleSum e item : ℚ) > (item.value : ℚ) * (1 / 2)))) := by
  refine ⟨estimatedValue_eq_specRecycleSum e item, ?_⟩
  rw [evaluateRecycleValue_isValuable]
  simp [List.isEmpty_iff, half_value_bridge]

/-- A binding for a different module id does not change the current level
read for this module. -/
theorem currentLevelOf_shadow_ne (p : UserProgress) (mid mid2 : String) (lvl : Int)
    (h : mid2 ≠ mid) :
    currentLevelOf { p with hideoutLevels := (mid, lvl) :: p.hideoutLevels } mid2
      = currentLevelOf p mid2 := by
  have hb : (mid2 == mid) = false := beq_eq_false_iff_ne.mpr h
  unfold currentLevelOf
  simp [List.lookup, hb]

/-- The hideout resolver reads the progress snapshot only through the
current level of each listed module. -/
theorem upgradeNames_congr (e : DecisionEngine) (item : Item) (p₁ p₂ : UserProgress)
    (h : ∀ m ∈ e.hideoutModules, currentLevelOf p₁ m.id = currentLevelOf p₂ m.id) :
    upgradeNames e item p₁ = upgradeNames e item p₂ := by
  unfold upgradeNames
  apply congrArg
  apply List.map_congr_left
  intro m hm
  unfold moduleEntries
  rw [h m hm]

/-- C9 counterexample: a negative stored level is NOT defaulted away — it is
used as the current level, so it changes the verdict relative to the absent
entry (which defaults to level 1): keep versus sell_or_recycle. -/
theorem C9_counterexample :
    WnegP.hideoutLevels = [("m1", -1)]
      ∧ (getDecision WengineNeg Wscrew WnegP).decision = .keep
      ∧ (getDecision WengineNeg Wscrew WemptyP).decision = .sell_or_recycle := by
  exact ⟨rfl, by decide, by decide⟩

/-- C9 amended: getDecision is total and tolerant of malformed progress: an
entry whose module id the engine does not recognize never changes any
verdict; a module with no entry behaves exactly as an entry at the default
level 1; and every item under every snapshot (negative levels included, which
are used verbatim rather than defaulted) still gets one of the three
verdicts. -/
theorem C9_malformed_progress :
    (∀ (e : DecisionEngine) (item : Item) (p : UserProgress) (mid : String) (lvl : Int),
        (∀ m ∈ e.hideoutModules, m.id ≠ mid) →
        getDecision e item { p with hideoutLevels := (mid, lvl) :: p.hideoutLevels }
          = getDecision e item p)
    ∧ (∀ (e : DecisionEngine) (item : Item) (p : UserProgress) (mid : String),
        p.hideoutLevels.lookup mid = none →
        getDecision e item { p with hideoutLevels := (mid, 1) :: p.hideoutLevels }
          = getDecision e item p)
    ∧ (∀ (e : DecisionEngine) (item : Item) (p : UserProgress),
        (getDecision e item p).decision = .keep
          ∨ (getDecision e item p).decision = .sell_or_recycle
          ∨ (getDecision e item p).decision = .situational) := by
  refine ⟨?_, ?_, ?_⟩
  · intro e item p mid lvl h
    exact getDecision_congr item rfl rfl rfl
      (upgradeNames_congr e item _ p
        (fun m hm => currentLevelOf_shadow_ne p mid m.id lvl (h m hm)))
  · intro e item p mid hmiss
    refine getDecision_congr item rfl rfl rfl (upgradeNames_congr e item _ p ?_)
    intro m hm
    by_cases hid : m.id = mid
    · unfold currentLevelOf
      rw [hid]
      simp [List.lookup, hmiss]
    · exact currentLevelOf_shadow_ne p mid m.id 1 hid
  · intro e item p
    cases hdec : (getDecision e item p).decision with
    | keep => exact Or.inl rfl
    | sell_or_recycle => exact Or.inr (Or.inl rfl)
    | situational => exact Or.inr (Or.inr rfl)

/-- C9 witness: an unknown module id has no effect, a missing entry equals
an explicit level-1 entry, and the negative-level snapshot still yields a
verdict. -/
theorem C9_malformed_progress_witness :
    getDecision WengineNeg Wscrew ⟨[("ghost_module", 7)], [], []⟩
        = getDecision WengineNeg Wscrew WemptyP
      ∧ getDecision WengineNeg Wscrew ⟨[("m1", 1)], [], []⟩
          = getDecision WengineNeg Wscrew WemptyP
      ∧ ((getDecision WengineNeg Wscrew WnegP).decision = .keep
          ∨ (getDecision WengineNeg Wscrew WnegP).decision = .sell_or_recycle
          ∨ (getDecision WengineNeg Wscrew WnegP).decision = .situational) := by
  refine ⟨?_, ?_, C9_malformed_progress.2.2 WengineNeg Wscrew WnegP⟩
  · exact C9_malformed_progress.1 WengineNeg Wscrew WemptyP "ghost_module" 7 (by decide)
  · exact C9_malformed_progress.2.1 WengineNeg Wscrew WemptyP "m1" (by decide)

/-- With pairwise distinct ids, find? by id returns the listed item. -/
theorem find_by_id (l : List Item) (hnd : (l.map (fun it => it.id)).Nodup)
    (it : Item) (hit : it ∈ l) :
    l.find? (fun x => x.id == it.id) = some it := by
  induction l with
  | nil => cases hit
  | cons a as ih =>
    rcases List.mem_cons.mp hit with rfl | hmem
    · simp [List.find?]
    · have hna : a.id ∉ as.map (fun x => x.id) := (List.nodup_cons.mp hnd).1
      have hne : (a.id == it.id) = false := by
        refine beq_eq_false_iff_ne.mpr ?_
        intro hc
        exact hna (hc ▸ List.mem_map.mpr ⟨it, hmem, rfl⟩)
      simp only [List.find?, hne]
      exact ih (List.nodup_cons.mp hnd).2 hmem

/-- With pairwise distinct ids, the catalog map resolves each listed item
from its id. -/
theorem lookupItem_eq_some (l : List Item) (hnd : (l.map (fun it => it.id)).Nodup)
    (it : Item) (hit : it ∈ l) :
    lookupItem l it.id = some it := by
  unfold lookupItem
  apply find_by_id
  · rw [List.map_reverse, List.nodup_reverse]
    exact hnd
  · exact List.mem_reverse.mpr hit

/-- Resolving a sublist of ids through the catalog returns the sublist. -/
theorem filterMap_lookup_ids (l : List Item) (sub : List Item)
    (h : ∀ it ∈ sub, lookupItem l it.id = some it) :
    (sub.map (fun it => it.id)).filterMap (fun id => lookupItem l id) = sub := by
  induction sub with
  | nil => rfl
  | cons a rest ih =>
    simp only [List.map_cons, List.filterMap_cons, h a (List.mem_cons_self a rest)]
    rw [ih (fun it hit => h it (List.mem_cons_of_mem a hit))]

/-- C10: with pairwise distinct catalog ids, getItemsUsingIngredient x is
exactly the catalog items whose recipe mapping holds the key x, in catalog
order.  The function is a pure read of the constructor-built index, so its
output cannot depend on when or whether the aggregate queries ran. -/
theorem C10_items_using_ingredient (e : DecisionEngine) (x : String)
    (hnd : (e.items.map (fun it => it.id)).Nodup) :
    getItemsUsingIngredient e x
      = e.items.filter (fun it => (it.recipe.getD []).any (fun kv => kv.1 == x)) := by
  unfold getItemsUsingIngredient buildReverseRecipeIndex
  apply filterMap_lookup_ids
  intro it hit
  exact lookupItem_eq_some e.items hnd it (List.mem_of_mem_filter hit)

/-- C10 witness: in the concrete catalog the ingredient mat is used by
exactly the three consumer items, in catalog order. -/
theorem C10_items_using_ingredient_witness :
    getItemsUsingIngredient WengineMat "mat"
        = WengineMat.items.filter
            (fun it => (it.recipe.getD []).any (fun kv => kv.1 == "mat"))
      ∧ (getItemsUsingIngredient WengineMat "mat").map (fun it => it.id)
          = ["c1", "c2", "c3"] := by
  refine ⟨C10_items_using_ingredient WengineMat "mat" (by decide), by decide⟩

/-- The worked example of the finishing pass: an item worth 100 with recycle
outputs 2 x 30 + 1 x 50 = 110 carries the recycleValueExceedsItem flag even
though the quest rule (an early-return keep step) produced its verdict. -/
theorem finishing_pass_on_keep_demo :
    (getDecision WengineBoxQ Wbox WemptyP).decision = .keep
      ∧ (getDecision WengineBoxQ Wbox WemptyP).recycleValueExceedsItem = true
      ∧ (evaluateRecycleValue WengineBoxQ Wbox).estimatedValue = 110 := by
  exact ⟨by decide, by decide, by decide⟩
